import Mathlib

/-!
Shallow embedding of the scheduler playground repository (src/main.py and
src/models.py).  Python strings are modelled as lists of characters, Python
exceptions as Except / Option values, and the mutable scheduler object as a
record that is threaded through the functions explicitly.
-/

namespace Supertask

/-- Python str.startswith, on character lists (first argument: the string,
second argument: the candidate leading pattern). -/
def startswith : List Char → List Char → Bool
  | _, [] => true
  | [], _ :: _ => false
  | c :: s, p :: ps => (p == c) && startswith s ps

/-- Length of the leading run of decimal digits (regex class \d over the
ASCII digits that appear in cron text). -/
def digitRun : List Char → Nat
  | [] => 0
  | c :: cs => if c.isDigit then digitRun cs + 1 else 0

/-- All remainders after consuming a nonempty digit prefix, one entry per
backtracking choice of the regex piece \d+ . -/
def digitRests (cs : List Char) : List (List Char) :=
  (List.range (digitRun cs)).map (fun k => cs.drop (k + 1))

/-- Remainders after one digit group followed by a comma, the piece \d+, . -/
def numCommaRests (cs : List Char) : List (List Char) :=
  (digitRests cs).filterMap (fun r =>
    match r with
    | ',' :: r2 => some r2
    | _ => none)

/-- Remainders after one or more digit-comma groups followed by a final digit
group, the alternative (\d+,)+\d+ of the crontab pattern.  The fuel argument
bounds the recursion; every group consumes at least two characters, so fuel
equal to the length of the input is enough. -/
def commaListRests : Nat → List Char → List (List Char)
  | 0, _ => []
  | fuel + 1, cs => (numCommaRests cs).flatMap (fun r => digitRests r ++ commaListRests fuel r)

/-- Remainders after one alternative of the repeated field group of the
crontab pattern of CronJob.validate_crontab:
(\d+,)+\d+ | \d+(\/|-)\d+ | \d+ | \* . -/
def fieldRests (cs : List Char) : List (List Char) :=
  commaListRests cs.length cs
    ++ (digitRests cs).flatMap (fun r =>
        match r with
        | c :: r2 => if (c == '/') || (c == '-') then digitRests r2 else []
        | [] => [])
    ++ digitRests cs
    ++ (match cs with
        | '*' :: r => [r]
        | _ => [])

/-- Remainders after the optional trailing space of the field group, the
piece " ?" of the pattern. -/
def optSpaceRests (cs : List Char) : List (List Char) :=
  match cs with
  | ' ' :: r => [cs, r]
  | _ => [cs]

/-- Whether n repetitions of the repeated group (field then optional space)
can be matched starting at the head of the input. -/
def matchReps : Nat → List Char → Bool
  | 0, _ => true
  | n + 1, cs => (fieldRests cs).any (fun r => (optSpaceRests r).any (fun r2 => matchReps n r2))

/-- re.match of the pattern (((\d+,)+\d+|(\d+(\/|-)\d+)|\d+|\*) ?){5,7}
against the input.  re.match only requires a prefix of the input to match,
and a backtracking engine succeeds exactly when some parse exists; since any
parse of at least five repetitions restricts to a parse of exactly five
repetitions of a shorter prefix, the match succeeds exactly when five
repetitions can be matched at the start. -/
def crontabPatternMatch (v : List Char) : Bool := matchReps 5 v

/-- CronJob.validate_crontab from src/models.py: raise
ValueError("Invalid crontab syntax") when the pattern does not match the
start of the input, otherwise return the input unchanged. -/
def validate_crontab (v : List Char) : Except String (List Char) :=
  if crontabPatternMatch v then Except.ok v else Except.error ("Invalid crontab syntax")

/-- Python str.split with no argument: split on runs of whitespace, dropping
empty pieces.  Auxiliary accumulator form, structurally recursive. -/
def splitWsAux : List Char → List Char → List (List Char)
  | [], acc => if acc.isEmpty then [] else [acc.reverse]
  | c :: cs, acc =>
    if c.isWhitespace then
      (if acc.isEmpty then splitWsAux cs [] else acc.reverse :: splitWsAux cs [])
    else splitWsAux cs (c :: acc)

/-- Python str.split with no argument. -/
def splitWs (cs : List Char) : List (List Char) := splitWsAux cs []

/-- The CronJob record of src/models.py (pydantic model): id, crontab, job,
enabled, last_run, last_status.  There is no timezone field.  Timestamps are
modelled as opaque naturals. -/
structure CronJob where
  id : Int
  crontab : List Char
  job : List Char
  enabled : Bool
  last_run : Option Nat := none
  last_status : Option (List Char) := none
  deriving DecidableEq, Repr

/-- The job_defaults dictionary passed to BackgroundScheduler in
Supertask.configure of src/main.py. -/
structure JobDefaults where
  coalesce : Bool
  max_instances : Nat
  deriving DecidableEq, Repr

/-- The executors dictionary of Supertask.configure: a thread pool of 20
workers under the key "default" and a process pool of 5 workers under the
key "processpool".  Only the pool sizes are modelled. -/
structure Executors where
  defaultPool : Nat
  processpool : Nat
  deriving DecidableEq, Repr

/-- The backend chosen for the job store: MemoryJobStore, SQLAlchemyJobStore
or CrateDBSQLAlchemyJobStore, the two durable ones keeping their url. -/
inductive JobStoreKind where
  | memory : JobStoreKind
  | sqlalchemy : List Char → JobStoreKind
  | crateDB : List Char → JobStoreKind
  deriving DecidableEq, Repr

/-- One job as registered with scheduler.add_job in Supertask.seed_jobs:
the callable name, the five cron fields, the job id, the target job store,
the argument list and the per-job max_instances override.  A job added
without an explicit timezone uses the timezone of the scheduler, recorded
here as the effective timezone of the trigger. -/
structure ScheduledJob where
  id : List Char
  func : List Char
  minute : List Char
  hour : List Char
  day : List Char
  month : List Char
  day_of_week : List Char
  jobstore : List Char
  args : List (List Char)
  max_instances : Nat
  timezone : List Char
  deriving DecidableEq, Repr

/-- The BackgroundScheduler as configured by Supertask.configure: executors,
job_defaults, the selected default job store, the process-wide timezone, and
the list of jobs registered so far (add_job on a scheduler that has not been
started yet only appends to its pending list). -/
structure BackgroundScheduler where
  executors : Executors
  job_defaults : JobDefaults
  jobstore : JobStoreKind
  timezone : List Char
  jobs : List ScheduledJob
  deriving DecidableEq, Repr

/-- The persisted contents of the job store backend, together with a flag
recording whether its remove_all_jobs call raises (a backend connection
failure).  Job contents are opaque labels. -/
structure JobStoreState where
  jobs : List (List Char)
  remove_fails : Bool := false
  deriving DecidableEq, Repr

/-- job_store.remove_all_jobs: clears every job, or raises when the backend
is failing. -/
def remove_all_jobs (s : JobStoreState) : Except String JobStoreState :=
  if s.remove_fails then Except.error ("ConnectionError: backend unavailable")
  else Except.ok { s with jobs := [] }

/-- The job_defaults value of Supertask.configure. -/
def job_defaults : JobDefaults := { coalesce := false, max_instances := 1 }

/-- The executors value of Supertask.configure. -/
def executors : Executors := { defaultPool := 20, processpool := 5 }

/-- The backend-selection chain at the top of Supertask.configure: the three
startswith tests in source order, with a RuntimeError for any other
address. -/
def selectJobStore (addr : List Char) : Except String JobStoreKind :=
  if startswith addr (("memory://").toList) then Except.ok JobStoreKind.memory
  else if startswith addr (("postgresql://").toList) then Except.ok (JobStoreKind.sqlalchemy addr)
  else if startswith addr (("crate://").toList) then Except.ok (JobStoreKind.crateDB addr)
  else Except.error ("Initializing job store failed. Unknown address: " ++ String.mk addr)

/-- Supertask.configure from src/main.py: choose the job store from the
address, optionally clear it (note that the try/except around
remove_all_jobs swallows every failure), then build the scheduler with
job_defaults, executors, the store and the fixed Europe/Vienna timezone.
The store state is threaded explicitly; on a RuntimeError no scheduler
value is produced. -/
def configure (job_store_address : List Char) (pre_delete_jobs : Bool) (store : JobStoreState) :
    Except String (BackgroundScheduler × JobStoreState) :=
  match selectJobStore job_store_address with
  | Except.error e => Except.error e
  | Except.ok job_store =>
    let store2 :=
      if pre_delete_jobs then
        match remove_all_jobs store with
        | Except.ok s2 => s2
        | Except.error _ => store
      else store
    Except.ok
      ({ executors := executors, job_defaults := job_defaults, jobstore := job_store,
         timezone := ("Europe/Vienna").toList, jobs := [] }, store2)

/-- scheduler.add_job on a not-yet-started scheduler: append to the pending
job list. -/
def add_job (sch : BackgroundScheduler) (j : ScheduledJob) : BackgroundScheduler :=
  { sch with jobs := sch.jobs ++ [j] }

/-- The ValueError raised by the five-name tuple unpack in seed_jobs when
crontab.split() does not yield exactly five pieces (the exact Python message
text is abstracted). -/
def unpackError : String := "ValueError: crontab does not unpack into 5 fields"

/-- Supertask.seed_jobs from src/main.py, with the result of get_db() passed
in as the cronjobs list.  Enabled jobs have their crontab split into the
five cron fields and are registered with add_job (callable my_job, job store
"default", args [cronjob.job], max_instances=4); disabled jobs are skipped.
A crontab that does not split into exactly five fields raises, which aborts
the loop; the pair returned is the scheduler state reached so far together
with the propagated error, if any. -/
def seed_jobs : List CronJob → BackgroundScheduler → BackgroundScheduler × Option String
  | [], sch => (sch, none)
  | cronjob :: rest, sch =>
    if cronjob.enabled then
      match splitWs cronjob.crontab with
      | [minute, hour, day, month, day_of_week] =>
        seed_jobs rest (add_job sch
          { id := (toString cronjob.id).toList, func := ("my_job").toList,
            minute := minute, hour := hour, day := day, month := month,
            day_of_week := day_of_week, jobstore := ("default").toList,
            args := [cronjob.job], max_instances := 4, timezone := sch.timezone })
      | _ => (sch, some unpackError)
    else seed_jobs rest sch

/-- run_supertask from src/main.py: construct the Supertask (which runs
configure) and seed the jobs; the pre_delete_jobs argument defaults to
false.  Errors of either phase propagate. -/
def run_supertask (job_store_address : List Char) (store : JobStoreState)
    (cronjobs : List CronJob) (pre_delete_jobs : Bool := false) :
    Except String (BackgroundScheduler × JobStoreState) :=
  match configure job_store_address pre_delete_jobs store with
  | Except.error e => Except.error e
  | Except.ok (sch, store2) =>
    match seed_jobs cronjobs sch with
    | (sch2, none) => Except.ok (sch2, store2)
    | (_, some e) => Except.error e

/-- A nonempty all-digit field. -/
def isNatField (f : List Char) : Bool := (!f.isEmpty) && f.all Char.isDigit

/-- Split on a separator character, keeping empty pieces. -/
def splitOnCharAux (sep : Char) : List Char → List Char → List (List Char)
  | [], acc => [acc.reverse]
  | c :: cs, acc =>
    if c == sep then acc.reverse :: splitOnCharAux sep cs []
    else splitOnCharAux sep cs (c :: acc)

/-- Split on a separator character, keeping empty pieces. -/
def splitOnChar (sep : Char) (cs : List Char) : List (List Char) := splitOnCharAux sep cs []

/-- Modelled from the spec: one well-formed cron field following the words of
the crontab evaluator section, each field accepting a star, a single
integer, a comma-separated list, a range a-b, or a step a/b (with a star
base also allowed, as in the example field */5 used by the spec). -/
def specFieldOk (f : List Char) : Bool :=
  (f == ['*']) || isNatField f
    || ((splitOnChar ',' f).length ≥ 2 && (splitOnChar ',' f).all isNatField)
    || (match splitOnChar '-' f with
        | [a, b] => isNatField a && isNatField b
        | _ => false)
    || (match splitOnChar '/' f with
        | [a, b] => (isNatField a || a == ['*']) && isNatField b
        | _ => false)

/-- Modelled from the spec: a well-formed 5-field cron expression — exactly
five whitespace-separated fields, each satisfying the field grammar.  This
definition follows the words of the spec and exists only to be compared
with validate_crontab. -/
def wellFormedCrontab (cs : List Char) : Bool :=
  (splitWs cs).length == 5 && (splitWs cs).all specFieldOk

/-- A memory:// job store address. -/
def memAddr : List Char := ("memory://sandbox").toList

/-- A store holding two pre-existing jobs, with a healthy backend. -/
def exampleStore : JobStoreState := { jobs := [("job-a").toList, ("job-b").toList] }

/-- A store holding one pre-existing job whose backend raises on
remove_all_jobs. -/
def exampleFailStore : JobStoreState := { jobs := [("job-a").toList], remove_fails := true }

/-- The scheduler value built by configure for a memory:// address. -/
def memScheduler : BackgroundScheduler :=
  { executors := executors, job_defaults := job_defaults, jobstore := JobStoreKind.memory,
    timezone := ("Europe/Vienna").toList, jobs := [] }

/-- The seeded example job of the spec: id 1, crontab */5 * * * *, enabled. -/
def cjGood : CronJob :=
  { id := 1, crontab := ("*/5 * * * *").toList, job := ("job-1").toList, enabled := true }

/-- A second well-formed enabled definition. -/
def cjGood2 : CronJob :=
  { id := 5, crontab := ("0 0 1 1 0").toList, job := ("job-5").toList, enabled := true }

/-- The malformed example of the spec: only three crontab fields. -/
def cjBad : CronJob :=
  { id := 2, crontab := ("*/5 * *").toList, job := ("job-2").toList, enabled := true }

/-- A disabled definition with a well-formed crontab. -/
def cjDisabled : CronJob :=
  { id := 7, crontab := ("* * * * *").toList, job := ("job-7").toList, enabled := false }

/-- The field lists actually registered for a definition by seed_jobs
(reading the five split components positionally), used to state which jobs a
completed seeding pass schedules. -/
def scheduledJobOf (sch : BackgroundScheduler) (cronjob : CronJob) : ScheduledJob :=
  { id := (toString cronjob.id).toList, func := ("my_job").toList,
    minute := (splitWs cronjob.crontab).getD 0 [], hour := (splitWs cronjob.crontab).getD 1 [],
    day := (splitWs cronjob.crontab).getD 2 [], month := (splitWs cronjob.crontab).getD 3 [],
    day_of_week := (splitWs cronjob.crontab).getD 4 [], jobstore := ("default").toList,
    args := [cronjob.job], max_instances := 4, timezone := sch.timezone }

/-- The job seeded from cjGood onto the freshly configured scheduler. -/
def seededGoodJob : ScheduledJob := scheduledJobOf memScheduler cjGood

/-! Helper lemmas. -/

theorem memScheme_eq : ("memory://").toList = ['m', 'e', 'm', 'o', 'r', 'y', ':', '/', '/'] := rfl

theorem pgScheme_eq :
    ("postgresql://").toList
      = ['p', 'o', 's', 't', 'g', 'r', 'e', 's', 'q', 'l', ':', '/', '/'] := rfl

theorem crateScheme_eq : ("crate://").toList = ['c', 'r', 'a', 't', 'e', ':', '/', '/'] := rfl

theorem startswith_head {s r : List Char} {c : Char} (h : startswith s (c :: r) = true) :
    ∃ t, s = c :: t := by
  cases s with
  | nil => exact absurd h (by simp [startswith])
  | cons b t =>
    have hb : (c == b) = true ∧ startswith t r = true := by
      simpa [startswith, Bool.and_eq_true] using h
    exact ⟨t, by rw [eq_of_beq hb.1]⟩

theorem startswith_head_ne {s r1 r2 : List Char} {c1 c2 : Char} (hne : c1 ≠ c2)
    (h1 : startswith s (c1 :: r1) = true) : startswith s (c2 :: r2) = false := by
  cases hb : startswith s (c2 :: r2) with
  | false => rfl
  | true =>
    obtain ⟨t1, e1⟩ := startswith_head h1
    obtain ⟨t2, e2⟩ := startswith_head hb
    rw [e1] at e2
    injection e2 with hc _
    exact (hne hc).elim

theorem configure_ok (addr : List Char) (pre : Bool) (store : JobStoreState) (k : JobStoreKind)
    (haddr : selectJobStore addr = Except.ok k) :
    configure addr pre store =
      Except.ok
        ({ executors := executors, job_defaults := job_defaults, jobstore := k,
           timezone := ("Europe/Vienna").toList, jobs := [] },
          if pre then
            match remove_all_jobs store with
            | Except.ok s2 => s2
            | Except.error _ => store
          else store) := by
  simp [configure, haddr]

theorem length_eq_five {α : Type} {l : List α} (h : l.length = 5) :
    ∃ a b c d e, l = [a, b, c, d, e] := by
  match l, h with
  | [a, b, c, d, e], _ => exact ⟨a, b, c, d, e, rfl⟩

theorem seed_jobs_cons_disabled (cronjob : CronJob) (rest : List CronJob)
    (sch : BackgroundScheduler) (he : cronjob.enabled = false) :
    seed_jobs (cronjob :: rest) sch = seed_jobs rest sch := by
  simp [seed_jobs, he]

theorem seed_jobs_cons_good (cronjob : CronJob) (rest : List CronJob)
    (sch : BackgroundScheduler) (m h d mo dw : List Char) (he : cronjob.enabled = true)
    (hs : splitWs cronjob.crontab = [m, h, d, mo, dw]) :
    seed_jobs (cronjob :: rest) sch =
      seed_jobs rest (add_job sch
        { id := (toString cronjob.id).toList, func := ("my_job").toList,
          minute := m, hour := h, day := d, month := mo, day_of_week := dw,
          jobstore := ("default").toList, args := [cronjob.job], max_instances := 4,
          timezone := sch.timezone }) := by
  simp [seed_jobs, he, hs]

theorem seed_jobs_cons_notfive (cronjob : CronJob) (rest : List CronJob)
    (sch : BackgroundScheduler) (he : cronjob.enabled = true)
    (h5 : (splitWs cronjob.crontab).length ≠ 5) :
    seed_jobs (cronjob :: rest) sch = (sch, some unpackError) := by
  rcases hs : splitWs cronjob.crontab with _ | ⟨a, _ | ⟨b, _ | ⟨c, _ | ⟨d, _ | ⟨e, _ | ⟨f, t⟩⟩⟩⟩⟩⟩ <;>
    first
      | (exfalso; apply h5; rw [hs]; rfl)
      | simp [seed_jobs, he, hs]

theorem seed_jobs_append_ok (l1 l2 : List CronJob) (sch : BackgroundScheduler)
    (h : (seed_jobs l1 sch).2 = none) :
    seed_jobs (l1 ++ l2) sch = seed_jobs l2 (seed_jobs l1 sch).1 := by
  induction l1 generalizing sch with
  | nil => rfl
  | cons cronjob rest ih =>
    by_cases he : cronjob.enabled = true
    · by_cases h5 : (splitWs cronjob.crontab).length = 5
      · obtain ⟨a, b, c, d, e, hs⟩ := length_eq_five h5
        rw [seed_jobs_cons_good cronjob rest sch a b c d e he hs] at h
        rw [List.cons_append, seed_jobs_cons_good cronjob (rest ++ l2) sch a b c d e he hs,
          seed_jobs_cons_good cronjob rest sch a b c d e he hs]
        exact ih _ h
      · rw [seed_jobs_cons_notfive cronjob rest sch he h5] at h
        exact absurd h (by simp)
    · have he2 : cronjob.enabled = false := by simpa using he
      rw [seed_jobs_cons_disabled cronjob rest sch he2] at h
      rw [List.cons_append, seed_jobs_cons_disabled cronjob (rest ++ l2) sch he2,
        seed_jobs_cons_disabled cronjob rest sch he2]
      exact ih _ h

theorem seed_jobs_mem (cronjobs : List CronJob) (sch : BackgroundScheduler) (j : ScheduledJob)
    (hj : j ∈ (seed_jobs cronjobs sch).1.jobs) :
    j ∈ sch.jobs ∨ (j.max_instances = 4 ∧ j.timezone = sch.timezone) := by
  induction cronjobs generalizing sch with
  | nil => exact Or.inl hj
  | cons cronjob rest ih =>
    by_cases he : cronjob.enabled = true
    · by_cases h5 : (splitWs cronjob.crontab).length = 5
      · obtain ⟨a, b, c, d, e, hs⟩ := length_eq_five h5
        rw [seed_jobs_cons_good cronjob rest sch a b c d e he hs] at hj
        rcases ih _ hj with hmem | hprop
        · rcases List.mem_append.mp hmem with h1 | h2
          · exact Or.inl h1
          · have hje : j = _ := List.mem_singleton.mp h2
            subst hje
            exact Or.inr ⟨rfl, rfl⟩
        · exact Or.inr hprop
      · rw [seed_jobs_cons_notfive cronjob rest sch he h5] at hj
        exact Or.inl hj
    · have he2 : cronjob.enabled = false := by simpa using he
      rw [seed_jobs_cons_disabled cronjob rest sch he2] at hj
      exact ih _ hj

/-! Claim theorems. -/

/-- C1, counterexample: the scheduler default limit is 1, yet the job seeded
from the example definition carries max_instances 4, so the concurrency
limit attached at seeding time is not the default limit of 1. -/
theorem C1_counterexample :
    job_defaults.max_instances = 1 ∧
    (seed_jobs [cjGood] memScheduler).1.jobs.map (fun j => j.max_instances) = [4] := by
  exact ⟨rfl, rfl⟩

/-- C1, amended: the job_defaults of the configured scheduler set the
default limit to 1, but seed_jobs attaches an explicit max_instances of 4 to
every job it schedules, so every newly seeded job has concurrency limit 4,
not 1. -/
theorem C1_amended_theorem (cronjobs : List CronJob) (sch : BackgroundScheduler)
    (j : ScheduledJob) (hj : j ∈ (seed_jobs cronjobs sch).1.jobs) (hnew : j ∉ sch.jobs) :
    j.max_instances = 4 ∧ job_defaults.max_instances = 1 := by
  rcases seed_jobs_mem cronjobs sch j hj with hmem | hprop
  · exact absurd hmem hnew
  · exact ⟨hprop.1, rfl⟩

/-- C1, witness: the job seeded from the example definition onto the fresh
scheduler has limit 4 while the default is 1. -/
theorem C1_witness : seededGoodJob.max_instances = 4 ∧ job_defaults.max_instances = 1 :=
  C1_amended_theorem [cjGood] memScheduler seededGoodJob (by decide) (by decide)

/-- C2, counterexample: the string 12345 2 3 has exactly three
whitespace-separated fields, yet validate_crontab accepts it and returns it
unchanged, so not every three-field crontab fails validation. -/
theorem C2_counterexample :
    (splitWs (("12345 2 3").toList)).length = 3 ∧
    validate_crontab (("12345 2 3").toList) = Except.ok (("12345 2 3").toList) := by
  exact ⟨rfl, rfl⟩

/-- C2, amended: seeding a job whose crontab has only three
whitespace-separated fields always fails — the five-name unpack in
seed_jobs raises and the job never enters the schedule, leaving the
scheduler unchanged — and validate_crontab does reject the example
expression of three fields, but not every three-field crontab fails
validation (the prefix regex accepts for instance 12345 2 3). -/
theorem C2_amended_theorem (cronjob : CronJob) (rest : List CronJob)
    (sch : BackgroundScheduler) (he : cronjob.enabled = true)
    (h3 : (splitWs cronjob.crontab).length = 3) :
    seed_jobs (cronjob :: rest) sch = (sch, some unpackError) ∧
    validate_crontab (("*/5 * *").toList) = Except.error ("Invalid crontab syntax") := by
  refine ⟨seed_jobs_cons_notfive cronjob rest sch he (by omega), rfl⟩

/-- C2, witness: the malformed example definition with crontab of three
fields aborts seeding of a singleton set with the unpack error and adds no
job. -/
theorem C2_witness :
    seed_jobs [cjBad] memScheduler = (memScheduler, some unpackError) ∧
    validate_crontab (("*/5 * *").toList) = Except.error ("Invalid crontab syntax") :=
  C2_amended_theorem cjBad [] memScheduler rfl rfl

/-- C3: validate_crontab rejects the standard five-field expression
*/5 * * * * with the invalid-syntax ValueError, although the expression
splits into five fields and is accepted by the seeding path, which schedules
it without error. -/
theorem C3_theorem :
    validate_crontab (("*/5 * * * *").toList) = Except.error ("Invalid crontab syntax") ∧
    (splitWs (("*/5 * * * *").toList)).length = 5 ∧
    (seed_jobs [cjGood] memScheduler).2 = none := by
  exact ⟨rfl, rfl, rfl⟩

/-- C4: configure selects the backend solely by the address scheme tested in
source order — the in-memory store exactly when the address starts with
memory://, the SQLAlchemy store exactly when it starts with postgresql://,
the CrateDB store exactly when it starts with crate://, and for every other
address configure raises, producing no scheduler. -/
theorem C4_theorem (addr : List Char) (pre : Bool) (store : JobStoreState) :
    (selectJobStore addr = Except.ok JobStoreKind.memory ↔
        startswith addr (("memory://").toList) = true) ∧
    (selectJobStore addr = Except.ok (JobStoreKind.sqlalchemy addr) ↔
        startswith addr (("postgresql://").toList) = true) ∧
    (selectJobStore addr = Except.ok (JobStoreKind.crateDB addr) ↔
        startswith addr (("crate://").toList) = true) ∧
    ((∃ e, configure addr pre store = Except.error e) ↔
        (startswith addr (("memory://").toList) = false ∧
         startswith addr (("postgresql://").toList) = false ∧
         startswith addr (("crate://").toList) = false)) ∧
    (∀ k, selectJobStore addr = Except.ok k →
        ∃ sch store2, configure addr pre store = Except.ok (sch, store2) ∧ sch.jobstore = k) := by
  have hsel : ∀ k, selectJobStore addr = Except.ok k →
      ∃ sch store2, configure addr pre store = Except.ok (sch, store2) ∧ sch.jobstore = k :=
    fun k hk => ⟨_, _, configure_ok addr pre store k hk, rfl⟩
  rw [memScheme_eq, pgScheme_eq, crateScheme_eq]
  by_cases hm : startswith addr ['m', 'e', 'm', 'o', 'r', 'y', ':', '/', '/'] = true
  · have hp : startswith addr ['p', 'o', 's', 't', 'g', 'r', 'e', 's', 'q', 'l', ':', '/', '/']
        = false := startswith_head_ne (by decide) hm
    have hc : startswith addr ['c', 'r', 'a', 't', 'e', ':', '/', '/'] = false :=
      startswith_head_ne (by decide) hm
    exact ⟨by simp [selectJobStore, hm], by simp [selectJobStore, hm, hp],
      by simp [selectJobStore, hm, hc], by simp [configure, selectJobStore, hm], hsel⟩
  · have hm2 : startswith addr ['m', 'e', 'm', 'o', 'r', 'y', ':', '/', '/'] = false := by
      simpa using hm
    by_cases hp : startswith addr ['p', 'o', 's', 't', 'g', 'r', 'e', 's', 'q', 'l', ':', '/', '/']
        = true
    · have hc : startswith addr ['c', 'r', 'a', 't', 'e', ':', '/', '/'] = false :=
        startswith_head_ne (by decide) hp
      exact ⟨by simp [selectJobStore, hm2, hp], by simp [selectJobStore, hm2, hp],
        by simp [selectJobStore, hm2, hp, hc], by simp [configure, selectJobStore, hm2, hp], hsel⟩
    · have hp2 : startswith addr ['p', 'o', 's', 't', 'g', 'r', 'e', 's', 'q', 'l', ':', '/', '/']
          = false := by simpa using hp
      by_cases hc : startswith addr ['c', 'r', 'a', 't', 'e', ':', '/', '/'] = true
      · exact ⟨by simp [selectJobStore, hm2, hp2, hc], by simp [selectJobStore, hm2, hp2, hc],
          by simp [selectJobStore, hm2, hp2, hc],
          by simp [configure, selectJobStore, hm2, hp2, hc], hsel⟩
      · have hc2 : startswith addr ['c', 'r', 'a', 't', 'e', ':', '/', '/'] = false := by
          simpa using hc
        exact ⟨by simp [selectJobStore, hm2, hp2, hc2], by simp [selectJobStore, hm2, hp2, hc2],
          by simp [selectJobStore, hm2, hp2, hc2],
          by simp [configure, selectJobStore, hm2, hp2, hc2], hsel⟩

/-- C4, witness: an address of unknown scheme makes configure raise, and a
memory:// address selects the in-memory store. -/
theorem C4_witness :
    (∃ e, configure (("bogus://x").toList) false exampleStore = Except.error e) ∧
    selectJobStore memAddr = Except.ok JobStoreKind.memory := by
  constructor
  · exact (C4_theorem (("bogus://x").toList) false exampleStore).2.2.2.1.mpr (by decide)
  · exact (C4_theorem memAddr false exampleStore).1.mpr (by decide)

/-- C5, counterexample: seeding the set of the malformed example definition
followed by a well-formed enabled definition errors out with no job
scheduled at all — the error is not contained and the other definition of
the set is not scheduled. -/
theorem C5_counterexample :
    (seed_jobs [cjBad, cjGood] memScheduler).1.jobs = [] ∧
    ((seed_jobs [cjBad, cjGood] memScheduler).2).isSome = true := by
  exact ⟨rfl, rfl⟩

/-- C5, amended: a malformed crontab in the seed set is not contained —
seed_jobs raises at the malformed entry and aborts, so the definitions
seeded before it remain scheduled but no definition after it is processed
or scheduled. -/
theorem C5_amended_theorem (pre post : List CronJob) (cronjob : CronJob)
    (sch : BackgroundScheduler) (hpre : (seed_jobs pre sch).2 = none)
    (he : cronjob.enabled = true) (hbad : (splitWs cronjob.crontab).length ≠ 5) :
    seed_jobs (pre ++ cronjob :: post) sch = ((seed_jobs pre sch).1, some unpackError) := by
  rw [seed_jobs_append_ok pre (cronjob :: post) sch hpre,
    seed_jobs_cons_notfive cronjob post (seed_jobs pre sch).1 he hbad]

/-- C5, witness: with one good definition before and one after the malformed
one, seeding stops right after the good one and raises. -/
theorem C5_witness :
    seed_jobs ([cjGood] ++ cjBad :: [cjGood2]) memScheduler =
      ((seed_jobs [cjGood] memScheduler).1, some unpackError) :=
  C5_amended_theorem [cjGood] [cjGood2] cjBad memScheduler rfl rfl (by decide)

/-- C6: with a recognized address and a healthy backend, configure clears
the job store exactly when the pre_delete_jobs flag is true and returns the
store untouched when it is false; the flag of run_supertask defaults to
false. -/
theorem C6_theorem (addr : List Char) (pre : Bool) (store : JobStoreState) (k : JobStoreKind)
    (haddr : selectJobStore addr = Except.ok k) (hrem : store.remove_fails = false) :
    (∃ sch, configure addr pre store =
        Except.ok (sch, if pre then { store with jobs := [] } else store)) ∧
    ∀ cronjobs : List CronJob,
        run_supertask addr store cronjobs = run_supertask addr store cronjobs false := by
  constructor
  · refine ⟨{ executors := executors, job_defaults := job_defaults, jobstore := k,
              timezone := ("Europe/Vienna").toList, jobs := [] }, ?_⟩
    rw [configure_ok addr pre store k haddr]
    cases pre <;> simp [remove_all_jobs, hrem]
  · intro cronjobs
    rfl

/-- C6, witness: on a memory:// address with the flag set, the example store
is cleared; the defaulted run_supertask call equals the explicit false
call. -/
theorem C6_witness :
    (∃ sch, configure memAddr true exampleStore =
        Except.ok (sch, if true then { exampleStore with jobs := [] } else exampleStore)) ∧
    ∀ cronjobs : List CronJob,
        run_supertask memAddr exampleStore cronjobs =
          run_supertask memAddr exampleStore cronjobs false :=
  C6_theorem memAddr true exampleStore JobStoreKind.memory rfl rfl

/-- C7, counterexample: with the pre-delete flag set and a backend whose
remove_all_jobs raises, configure still returns successfully and the store
keeps its jobs — the failure does not propagate and startup does not
abort. -/
theorem C7_counterexample :
    configure memAddr true exampleFailStore = Except.ok (memScheduler, exampleFailStore) ∧
    exampleFailStore.jobs ≠ [] := by
  exact ⟨rfl, by decide⟩

/-- C7, amended: when the job store backend raises while clearing jobs
during startup with the pre-delete flag set, the bare try/except in
configure swallows the failure: configure returns a scheduler as usual and
the store contents are left untouched. -/
theorem C7_amended_theorem (addr : List Char) (store : JobStoreState) (k : JobStoreKind)
    (haddr : selectJobStore addr = Except.ok k) (hfail : store.remove_fails = true) :
    configure addr true store =
      Except.ok
        ({ executors := executors, job_defaults := job_defaults, jobstore := k,
           timezone := ("Europe/Vienna").toList, jobs := [] }, store) := by
  rw [configure_ok addr true store k haddr]
  simp [remove_all_jobs, hfail]

/-- C7, witness: the failing example store passes through configure
unchanged under a memory:// address. -/
theorem C7_witness :
    configure memAddr true exampleFailStore =
      Except.ok
        ({ executors := executors, job_defaults := job_defaults,
           jobstore := JobStoreKind.memory, timezone := ("Europe/Vienna").toList,
           jobs := [] }, exampleFailStore) :=
  C7_amended_theorem memAddr exampleFailStore JobStoreKind.memory rfl rfl

/-- C8, counterexample: an enabled definition whose crontab is malformed is
not scheduled by seed_jobs, so a job being enabled does not suffice for it
to be scheduled. -/
theorem C8_counterexample :
    cjBad.enabled = true ∧ (seed_jobs [cjBad] memScheduler).1.jobs = [] := by
  exact ⟨rfl, rfl⟩

/-- C8, amended: when seeding completes without error, the jobs it adds to
the scheduler are exactly the enabled definitions of the seed set, in
order — a definition is scheduled if and only if it is enabled, and
disabled definitions are retained in the set but never scheduled.  (An
enabled definition with a malformed crontab instead aborts seeding, which
is the case excluded by the hypothesis.) -/
theorem C8_theorem (cronjobs : List CronJob) (sch : BackgroundScheduler)
    (h : (seed_jobs cronjobs sch).2 = none) :
    (seed_jobs cronjobs sch).1.jobs =
      sch.jobs ++ (cronjobs.filter (fun cronjob => cronjob.enabled)).map (scheduledJobOf sch) := by
  induction cronjobs generalizing sch with
  | nil => simp [seed_jobs]
  | cons cronjob rest ih =>
    by_cases he : cronjob.enabled = true
    · by_cases h5 : (splitWs cronjob.crontab).length = 5
      · obtain ⟨a, b, c, d, e, hs⟩ := length_eq_five h5
        rw [seed_jobs_cons_good cronjob rest sch a b c d e he hs] at h ⊢
        rw [ih _ h]
        have hmap : scheduledJobOf (add_job sch
            { id := (toString cronjob.id).toList, func := ("my_job").toList,
              minute := a, hour := b, day := c, month := d, day_of_week := e,
              jobstore := ("default").toList, args := [cronjob.job], max_instances := 4,
              timezone := sch.timezone }) = scheduledJobOf sch := rfl
        have hrec : scheduledJobOf sch cronjob =
            { id := (toString cronjob.id).toList, func := ("my_job").toList,
              minute := a, hour := b, day := c, month := d, day_of_week := e,
              jobstore := ("default").toList, args := [cronjob.job], max_instances := 4,
              timezone := sch.timezone } := by
          simp [scheduledJobOf, hs]
        rw [hmap]
        simp [add_job, List.filter_cons, he, hrec, List.append_assoc]
      · rw [seed_jobs_cons_notfive cronjob rest sch he h5] at h
        exact absurd h (by simp)
    · have he2 : cronjob.enabled = false := by simpa using he
      rw [seed_jobs_cons_disabled cronjob rest sch he2] at h ⊢
      rw [ih _ h]
      simp [List.filter, he2]

/-- C8, witness: seeding one enabled and one disabled well-formed definition
schedules exactly the job of the enabled one. -/
theorem C8_witness :
    (seed_jobs [cjGood, cjDisabled] memScheduler).1.jobs =
      memScheduler.jobs ++
        (([cjGood, cjDisabled].filter (fun cronjob => cronjob.enabled)).map
          (scheduledJobOf memScheduler)) :=
  C8_theorem [cjGood, cjDisabled] memScheduler rfl

/-- C9: for any recognized address, configure builds the scheduler with the
fixed Europe/Vienna timezone, and since a job definition carries no
timezone of its own, every job subsequently registered by seed_jobs carries
this process-wide timezone. -/
theorem C9_theorem (addr : List Char) (pre : Bool) (store : JobStoreState) (k : JobStoreKind)
    (haddr : selectJobStore addr = Except.ok k) :
    ∃ sch store2, configure addr pre store = Except.ok (sch, store2) ∧
      sch.timezone = ("Europe/Vienna").toList ∧
      ∀ (cronjobs : List CronJob) (j : ScheduledJob),
        j ∈ (seed_jobs cronjobs sch).1.jobs → j.timezone = ("Europe/Vienna").toList := by
  refine ⟨_, _, configure_ok addr pre store k haddr, rfl, ?_⟩
  intro cronjobs j hj
  rcases seed_jobs_mem cronjobs _ j hj with hmem | hprop
  · exact absurd hmem (by simp)
  · exact hprop.2

/-- C9, witness: on the example memory:// configuration every seeded job
carries the Europe/Vienna timezone. -/
theorem C9_witness :
    ∃ sch store2, configure memAddr false exampleStore = Except.ok (sch, store2) ∧
      sch.timezone = ("Europe/Vienna").toList ∧
      ∀ (cronjobs : List CronJob) (j : ScheduledJob),
        j ∈ (seed_jobs cronjobs sch).1.jobs → j.timezone = ("Europe/Vienna").toList :=
  C9_theorem memAddr false exampleStore JobStoreKind.memory rfl

/-- C10: validate_crontab decides acceptance by a prefix match with optional
separators, so it accepts strings that are not well-formed five-field cron
expressions and returns them unchanged — the separator-free digit string
12345, and five fields followed by arbitrary trailing text. -/
theorem C10_theorem :
    validate_crontab (("12345").toList) = Except.ok (("12345").toList) ∧
    wellFormedCrontab (("12345").toList) = false ∧
    validate_crontab (("1 2 3 4 5 garbage").toList) =
      Except.ok (("1 2 3 4 5 garbage").toList) ∧
    wellFormedCrontab (("1 2 3 4 5 garbage").toList) = false := by
  exact ⟨rfl, rfl, rfl, rfl⟩

end Supertask
